import Mathlib

/-!
Shallow embedding of the Ocr_extractor document pipeline
(`Worker.py`, `Main.py`, `Executor.py`).

External stages implemented in the repository's `processing` module
(rotation scoring, card localization, preprocessing, quality heuristics)
and the external libraries (PyMuPDF, PIL, httpx) are modelled as oracle
functions collected in an `Env` record; a call that may raise a Python
exception is modelled as `Except String`.  `process_document` returning
`Except.error m` models the Python exception `m` escaping
`process_document`; `Main.process` catches it, as in the source.
The embedding additionally records the stages executed and the HTTP
requests issued as an event trace, so that claims of the form
"stage X does not run" and "the extractor receives exactly these bytes"
are statable.
-/

namespace OcrExtractor

/-- A PyMuPDF document handle as far as `process_document` uses it:
its page count, and rendering page 0 to PNG bytes
(`doc[0]`, `get_pixmap`, `tobytes`), which may raise. -/
structure Pdf where
  pageCount : Nat
  renderPage0 : Except String (List Nat)

/-- One HTTP POST issued by `extractor_call`: target URL, timeout in
seconds, the multipart file field (filename, bytes, content type). -/
structure Request where
  url : String
  timeout : Nat
  filename : String
  content_type : String
  body : List Nat
deriving DecidableEq, Repr

/-- Outcome of one HTTP POST: a transport-level error (connect failure,
timeout — httpx raises), or a response with a status code, a body that
may or may not parse as JSON, and the raw body text. -/
inductive HttpOutcome where
  | transportError (msg : String)
  | response (status : Nat) (jsonBody : Option String) (text : String)
deriving DecidableEq, Repr

/-- Rotation diagnostics block attached to envelopes
(`best_angle`, `best_stats`, `per_angle`). -/
structure RotationInfo (Stats : Type) where
  best_angle : Int
  best_stats : Stats
  per_angle : List (Int × Stats)
deriving DecidableEq, Repr

/-- The result envelope returned by the pipeline (the JSON dict built in
`process_document` / `Main.process`); absent keys are `none`. -/
structure Envelope (Stats : Type) where
  status : String
  reason : Option String := none
  detail : Option String := none
  data : Option String := none
  rotation : Option (RotationInfo Stats) := none
deriving DecidableEq, Repr

/-- Stage events recorded by the embedding: which pipeline stages ran,
and each HTTP request issued to the extraction service. -/
inductive Event where
  | orient
  | localize
  | normalize
  | quality
  | extract (req : Request)
deriving DecidableEq, Repr

/-- The external collaborators of `process_document`, one oracle per
call site that is outside this repository's `src` control flow:
`fitz.open`, `PIL.Image.open(...).convert("RGB")`,
`best_rotation_by_easyocr`, `extract_card`,
`preprocess_for_compress_and_readability`, `resize_long_edge`,
`cv2.cvtColor`, `quality_check`, `pil_to_png_bytes`, and the HTTP layer.
`Except.error` models the call raising. -/
structure Env (Img Card Cv Stats : Type) where
  fitz_open : List Nat → Except String Pdf
  image_open : List Nat → Except String Img
  best_rotation : Img → Except String (Img × Int × Stats × List (Int × Stats))
  extract_card : Img → Except String (Option Card)
  preprocess : Card → Except String Card
  resize_long_edge : Card → Except String Card
  cvt_color : Card → Except String Cv
  quality_check : Cv → Except String (Bool × String)
  pil_to_png_bytes : Card → Except String (List Nat)
  http : Request → HttpOutcome

/-- `EXTRACTOR_URL` from `Worker.py`. -/
def EXTRACTOR_URL : String := "https://file-extractordev.sidbi.in/extract"

/-- `EXTRACTOR_TIMEOUT` from `Worker.py` (60.0 seconds). -/
def EXTRACTOR_TIMEOUT : Nat := 60

/-- Best-effort decoding of an error body: `resp.json()` if it parses,
else `resp.text` (the `try/except` at lines 45-48 of `Worker.py`). -/
def errorDetail (jsonBody : Option String) (text : String) : String :=
  match jsonBody with
  | some j => j
  | none => text

/-- The single request `extractor_call` builds: the fixed URL and
timeout, and the multipart file field `(filename, file_bytes,
content_type)`. -/
def requestFor (file_bytes : List Nat) (filename content_type : String) : Request :=
  { url := EXTRACTOR_URL, timeout := EXTRACTOR_TIMEOUT,
    filename := filename, content_type := content_type, body := file_bytes }

/-- `extractor_call` from `Worker.py`: posts the file once to
`EXTRACTOR_URL` with the fixed timeout; non-2xx raises a `RuntimeError`
carrying the decoded body; a 2xx returns `resp.json()`, which itself
raises when the body is not JSON.  Also returns the list of requests
issued (always exactly one). -/
def extractor_call (http : Request → HttpOutcome) (file_bytes : List Nat)
    (filename : String) (content_type : String) :
    Except String String × List Request :=
  match http (requestFor file_bytes filename content_type) with
  | HttpOutcome.transportError m => (Except.error m, [requestFor file_bytes filename content_type])
  | HttpOutcome.response st jsonBody text =>
      if st < 200 ∨ 300 ≤ st then
        (Except.error ("ExtractorDev error " ++ toString st ++ ": " ++ errorDetail jsonBody text),
         [requestFor file_bytes filename content_type])
      else
        match jsonBody with
        | some j => (Except.ok j, [requestFor file_bytes filename content_type])
        | none => (Except.error ("JSON decode error: " ++ text),
                   [requestFor file_bytes filename content_type])

/-- The decoding-failure envelope of `process_document`
(three identical construction sites). -/
def decodingFailureEnvelope (Stats : Type) : Envelope Stats :=
  { status := "failure", reason := some "Decoding failed. Please retry again." }

/-- The card-not-detected reason string of `process_document`
(the two adjacent Python string literals concatenated). -/
def cardNotDetectedReason : String :=
  "Card not detected. Please make sure all edges of the cards are visible. Note: Retake/re-upload in better quality—good lighting, sharp focus, no shadows/glare."

/-- Python `str.split(".")`: splits a character list at every dot,
keeping empty segments. -/
def splitOnDot : List Char → List (List Char)
  | [] => [[]]
  | c :: cs =>
      if c = '.' then [] :: splitOnDot cs
      else
        match splitOnDot cs with
        | [] => [[c]]
        | g :: gs => (c :: g) :: gs

/-- `ext = (filename.split(".")[-1].lower() if filename else "")`,
shared by `Worker.process_document` and `Main.process`. -/
def extOf (filename : String) : String :=
  if filename = "" then ""
  else String.mk (((splitOnDot filename.data).getLast?.getD []).map Char.toLower)

/-- The pipeline tail of `process_document` after a single image has
been decoded (lines 112-184 of `Worker.py`): rotation, card detection
gate, preprocessing, quality gate, extractor call.  Only the extractor
call sits in a `try`; every other stage raising escapes as
`Except.error`. -/
def afterDecode {Img Card Cv Stats : Type} (env : Env Img Card Cv Stats) (img : Img) :
    Except String (Envelope Stats) × List Event :=
  match env.best_rotation img with
  | Except.error m => (Except.error m, [Event.orient])
  | Except.ok (_img2, best_angle, best_stats, per_angle) =>
    match env.extract_card _img2 with
    | Except.error m => (Except.error m, [Event.orient, Event.localize])
    | Except.ok none =>
        (Except.ok
          { status := "failure", reason := some cardNotDetectedReason,
            rotation := some { best_angle := best_angle, best_stats := best_stats, per_angle := per_angle } },
         [Event.orient, Event.localize])
    | Except.ok (some card0) =>
      match env.preprocess card0 with
      | Except.error m => (Except.error m, [Event.orient, Event.localize, Event.normalize])
      | Except.ok card1 =>
        match env.resize_long_edge card1 with
        | Except.error m => (Except.error m, [Event.orient, Event.localize, Event.normalize])
        | Except.ok card2 =>
          match env.cvt_color card2 with
          | Except.error m =>
              (Except.error m, [Event.orient, Event.localize, Event.normalize, Event.quality])
          | Except.ok cv_img =>
            match env.quality_check cv_img with
            | Except.error m =>
                (Except.error m, [Event.orient, Event.localize, Event.normalize, Event.quality])
            | Except.ok (passed, verdict) =>
              if passed = false then
                (Except.ok
                  { status := "failure", reason := some verdict,
                    rotation := some { best_angle := best_angle, best_stats := best_stats, per_angle := per_angle } },
                 [Event.orient, Event.localize, Event.normalize, Event.quality])
              else
                match env.pil_to_png_bytes card2 with
                | Except.error m =>
                    (Except.error m, [Event.orient, Event.localize, Event.normalize, Event.quality])
                | Except.ok img_bytes =>
                  match extractor_call env.http img_bytes "card.png" "image/png" with
                  | (Except.ok extractor_json, reqs) =>
                      (Except.ok
                        { status := "success",
                          rotation := some { best_angle := best_angle, best_stats := best_stats, per_angle := per_angle },
                          data := some extractor_json },
                       [Event.orient, Event.localize, Event.normalize, Event.quality] ++ reqs.map Event.extract)
                  | (Except.error e, reqs) =>
                      (Except.ok
                        { status := "failure", reason := some "extractor_failed", detail := some e,
                          rotation := some { best_angle := best_angle, best_stats := best_stats, per_angle := per_angle } },
                       [Event.orient, Event.localize, Event.normalize, Event.quality] ++ reqs.map Event.extract)

/-- `process_document` from `Worker.py`.  Returns the envelope, or
`Except.error` when a Python exception escapes the function, together
with the trace of stages executed and requests issued. -/
def process_document {Img Card Cv Stats : Type} (env : Env Img Card Cv Stats)
    (raw : List Nat) (filename : String) :
    Except String (Envelope Stats) × List Event :=
  if extOf filename = "pdf" then
    match env.fitz_open raw with
    | Except.error _ => (Except.ok (decodingFailureEnvelope Stats), [])
    | Except.ok doc =>
      if doc.pageCount > 1 then
        match extractor_call env.http raw (if filename = "" then "file.pdf" else filename)
            "application/pdf" with
        | (Except.ok extractor_json, reqs) =>
            (Except.ok { status := "success", data := some extractor_json }, reqs.map Event.extract)
        | (Except.error e, reqs) =>
            (Except.ok { status := "failure", reason := some "extractor_failed", detail := some e },
             reqs.map Event.extract)
      else
        match doc.renderPage0 with
        | Except.error m => (Except.error m, [])
        | Except.ok png =>
          match env.image_open png with
          | Except.error _ => (Except.ok (decodingFailureEnvelope Stats), [])
          | Except.ok img => afterDecode env img
  else
    match env.image_open raw with
    | Except.error _ => (Except.ok (decodingFailureEnvelope Stats), [])
    | Except.ok img => afterDecode env img

/-- The invalid-extension envelope of `Main.process`. -/
def invalidTypeEnvelope (Stats : Type) : Envelope Stats :=
  { status := "failure",
    reason := some "Invalid file type. Please upload either one of pdf, jpg, jpeg or png" }

/-- `process` from `Main.py`: validates the extension against the
allow-list, dispatches `process_document`, and converts any exception
escaping it into a generic failure envelope. -/
def process {Img Card Cv Stats : Type} (env : Env Img Card Cv Stats)
    (raw : List Nat) (filename : String) : Envelope Stats :=
  if ["pdf", "jpg", "jpeg", "png"].contains (extOf filename) then
    match (process_document env raw (if filename = "" then "file" else filename)).1 with
    | Except.ok e => e
    | Except.error m =>
        { status := "failure", reason := some "Processing failed", detail := some m }
  else invalidTypeEnvelope Stats

/-- `MAX_WORKERS` from `Executor.py`, as a function of the reported CPU
count. -/
def MAX_WORKERS (cpu_count : Nat) : Nat := max 1 (cpu_count - 1)

/-! ### Spec-modelled orientation resolver

`best_rotation_by_easyocr` lives in the repository's `processing`
module, which is not under `src/`; only its call site is.  The angle
selection is modelled from the spec: score each candidate angle with the
recognition engine, pick the best score, break ties by preferring angle
0, then the smaller absolute angle, then first-seen order. -/

/-- Modelled from the spec: the tie-break order among equal-scoring
candidate angles — angle 0 first, then smaller absolute magnitude, then
first-seen (a candidate only displaces an earlier one when this returns
`true`). -/
def tiePrefers (x best : Int) : Bool :=
  (x == 0 && best != 0) || (x != 0 && best != 0 && decide (x.natAbs < best.natAbs))

/-- Modelled from the spec: candidate `x` displaces the current best
angle `best` when its confidence summary is strictly larger, or equal
with a preferred tie-break position. -/
def beats (score : Int → Int) (x best : Int) : Bool :=
  decide (score best < score x) || (decide (score x = score best) && tiePrefers x best)

/-- Modelled from the spec: the chosen angle of the Orientation
Resolver over the configured candidates `(0, 90, -90)` (the tuple
passed at the call site in `Worker.py`), given the per-angle confidence
summaries `score`. -/
def best_rotation_angle (score : Int → Int) : Int :=
  [(90 : Int), -90].foldl (fun best x => if beats score x best then x else best) 0

/-! ### Concrete environments for witnesses and counterexamples -/

/-- An environment in which every stage succeeds: decoding yields a
single-page document, the card is found, quality passes, and the
extraction service answers 200 with a JSON body. -/
def baseEnv : Env Nat Nat Nat Int :=
  { fitz_open := fun _ => Except.ok { pageCount := 1, renderPage0 := Except.ok [1] },
    image_open := fun _ => Except.ok 0,
    best_rotation := fun i => Except.ok (i, 0, 1, [(0, 1), (90, 0), (-90, 0)]),
    extract_card := fun i => Except.ok (some i),
    preprocess := Except.ok,
    resize_long_edge := Except.ok,
    cvt_color := Except.ok,
    quality_check := fun _ => Except.ok (true, ""),
    pil_to_png_bytes := fun _ => Except.ok [2],
    http := fun _ => HttpOutcome.response 200 (some "payload") "payload" }

/-- Corrupt-bytes environment: `fitz.open` and `PIL.Image.open` both
raise. -/
def envDecodeFail : Env Nat Nat Nat Int :=
  { baseEnv with
    fitz_open := fun _ => Except.error "cannot open broken document",
    image_open := fun _ => Except.error "cannot identify image file" }

/-- Environment in which `best_rotation_by_easyocr` raises. -/
def envRotFail : Env Nat Nat Nat Int :=
  { baseEnv with best_rotation := fun _ => Except.error "rotation stage crashed" }

/-- Environment in which the Card Localizer returns the not-found
marker. -/
def envNoCard : Env Nat Nat Nat Int :=
  { baseEnv with extract_card := fun _ => Except.ok none }

/-- Environment in which the Quality Gate fails with a specific
verdict reason. -/
def envBadQuality : Env Nat Nat Nat Int :=
  { baseEnv with quality_check := fun _ => Except.ok (false, "image too blurry") }

/-- Environment in which the extraction service answers 503 with a
non-JSON body. -/
def envHttp503 : Env Nat Nat Nat Int :=
  { baseEnv with http := fun _ => HttpOutcome.response 503 none "Service Unavailable" }

/-- Environment whose decoded PDF has three pages. -/
def envMultiPage : Env Nat Nat Nat Int :=
  { baseEnv with
    fitz_open := fun _ => Except.ok { pageCount := 3, renderPage0 := Except.ok [1] } }

/-- Three-page PDF whose extraction call fails with a transport error. -/
def envMultiPageHttpDown : Env Nat Nat Nat Int :=
  { baseEnv with
    fitz_open := fun _ => Except.ok { pageCount := 3, renderPage0 := Except.ok [1] },
    http := fun _ => HttpOutcome.transportError "connection timed out" }

/-- An HTTP layer answering 200 with a body that does not parse as
JSON. -/
def httpBadJson : Request → HttpOutcome :=
  fun _ => HttpOutcome.response 200 none "oops not json"

/-- An HTTP layer answering 200 with a JSON body. -/
def http200 : Request → HttpOutcome :=
  fun _ => HttpOutcome.response 200 (some "payload") "payload"

/-! ### Helper lemmas -/

/-- Every envelope that `afterDecode` returns without raising has a
terminal status. -/
lemma afterDecode_status {Img Card Cv Stats : Type} (env : Env Img Card Cv Stats) (img : Img)
    (e : Envelope Stats) (h : (afterDecode env img).1 = Except.ok e) :
    e.status = "success" ∨ e.status = "failure" := by
  unfold afterDecode at h
  repeat' split at h
  all_goals simp_all
  all_goals subst h
  all_goals first | exact Or.inr rfl | exact Or.inl rfl

/-- Every envelope that `process_document` returns without raising has
a terminal status. -/
lemma process_document_status {Img Card Cv Stats : Type} (env : Env Img Card Cv Stats)
    (raw : List Nat) (filename : String) (e : Envelope Stats)
    (h : (process_document env raw filename).1 = Except.ok e) :
    e.status = "success" ∨ e.status = "failure" := by
  unfold process_document at h
  repeat' split at h
  all_goals try exact afterDecode_status _ _ _ h
  all_goals simp_all [decodingFailureEnvelope]
  all_goals subst h
  all_goals first | exact Or.inr rfl | exact Or.inl rfl

/-- `extractor_call` issues exactly one request, to the fixed endpoint
with the fixed timeout, whatever the HTTP layer answers. -/
lemma extractor_call_requests (http : Request → HttpOutcome) (b : List Nat) (f c : String) :
    (extractor_call http b f c).2 =
      [{ url := EXTRACTOR_URL, timeout := EXTRACTOR_TIMEOUT,
         filename := f, content_type := c, body := b }] := by
  simp only [extractor_call]
  repeat' split
  all_goals rfl

/-! ### Claims -/

/-- Claim C1, amended: the full request operation `process` always
returns a terminal envelope (status `success` or `failure`) for every
input — decoding and extraction failures are converted inside
`process_document`, and any other stage exception escapes
`process_document` and is converted by the catch-all in `Main.process`. -/
theorem C1_process_always_terminal {Img Card Cv Stats : Type} (env : Env Img Card Cv Stats)
    (raw : List Nat) (filename : String) :
    (process env raw filename).status = "success" ∨
      (process env raw filename).status = "failure" := by
  unfold process
  split
  · rcases hpd : (process_document env raw (if filename = "" then "file" else filename)).1
      with m | e
    · simp [hpd]
    · simp only [hpd]
      exact process_document_status _ _ _ _ hpd
  · exact Or.inr rfl

/-- Claim C1 is false as stated: when `best_rotation_by_easyocr` raises
on a decodable image input, the exception escapes `process_document`
instead of being converted into a failure envelope (`Except.error`
models the escaping Python exception). -/
theorem C1_counterexample :
    (process_document envRotFail [0] "a.jpg").1 = Except.error "rotation stage crashed" := rfl

/-- Claim C2, amended: for every input whose bytes cannot be decoded
(`fitz.open` raising on the pdf path, or `PIL.Image.open` raising on
the image path), `process_document` returns a failure envelope whose
reason is exactly "Decoding failed. Please retry again." and which has
no rotation field. -/
theorem C2_decoding_failure {Img Card Cv Stats : Type} (env : Env Img Card Cv Stats)
    (raw : List Nat) (filename : String) (m1 m2 : String)
    (hpdf : extOf filename = "pdf" → env.fitz_open raw = Except.error m1)
    (himg : extOf filename ≠ "pdf" → env.image_open raw = Except.error m2) :
    (process_document env raw filename).1 =
      Except.ok { status := "failure",
                  reason := some "Decoding failed. Please retry again.",
                  detail := none, data := none, rotation := none } := by
  unfold process_document
  by_cases h : extOf filename = "pdf"
  · simp [h, hpdf h, decodingFailureEnvelope]
  · simp [h, himg h, decodingFailureEnvelope]

/-- Witness for C2: corrupt bytes with a pdf extension produce the
decoding-failure envelope with no rotation field. -/
theorem C2_witness :
    (process_document envDecodeFail [0] "broken.pdf").1 =
      Except.ok { status := "failure",
                  reason := some "Decoding failed. Please retry again.",
                  detail := none, data := none, rotation := none } :=
  C2_decoding_failure envDecodeFail [0] "broken.pdf"
    "cannot open broken document" "cannot identify image file"
    (fun _ => rfl) (fun h => absurd rfl h)

/-- Claim C2 is false as stated: the decoding-failure reason is the
sentence "Decoding failed. Please retry again.", not exactly
"decoding failed". -/
theorem C2_counterexample :
    (process_document envDecodeFail [0] "broken.pdf").1 =
        Except.ok (decodingFailureEnvelope Int) ∧
      (decodingFailureEnvelope Int).reason ≠ some "decoding failed" :=
  ⟨rfl, by decide⟩

/-- Claim C3, amended: whenever the extraction call fails, the envelope
has status "failure", reason exactly "extractor_failed", detail equal
to the upstream error string, and rotation diagnostics attached when
they were computed (single-page image path) and absent when they were
not (multi-page forward path). -/
theorem C3_extractor_failure {Img Card Cv Stats : Type} (env : Env Img Card Cv Stats)
    (raw : List Nat) (filename : String) :
    (∀ (img img2 : Img) (a : Int) (s : Stats) (pa : List (Int × Stats))
        (card0 card1 card2 : Card) (cv_img : Cv) (v : String) (png : List Nat)
        (e : String) (reqs : List Request),
      extOf filename ≠ "pdf" →
      env.image_open raw = Except.ok img →
      env.best_rotation img = Except.ok (img2, a, s, pa) →
      env.extract_card img2 = Except.ok (some card0) →
      env.preprocess card0 = Except.ok card1 →
      env.resize_long_edge card1 = Except.ok card2 →
      env.cvt_color card2 = Except.ok cv_img →
      env.quality_check cv_img = Except.ok (true, v) →
      env.pil_to_png_bytes card2 = Except.ok png →
      extractor_call env.http png "card.png" "image/png" = (Except.error e, reqs) →
      (process_document env raw filename).1 =
        Except.ok { status := "failure", reason := some "extractor_failed",
                    detail := some e, data := none,
                    rotation := some { best_angle := a, best_stats := s, per_angle := pa } }) ∧
    (∀ (doc : Pdf) (e : String) (reqs : List Request),
      extOf filename = "pdf" →
      env.fitz_open raw = Except.ok doc →
      1 < doc.pageCount →
      extractor_call env.http raw (if filename = "" then "file.pdf" else filename)
          "application/pdf" = (Except.error e, reqs) →
      (process_document env raw filename).1 =
        Except.ok { status := "failure", reason := some "extractor_failed",
                    detail := some e, data := none, rotation := none }) := by
  constructor
  · intro img img2 a s pa card0 card1 card2 cv_img v png e reqs
    intro hext himg hrot hcard hpre hres hcvt hq hpng hcall
    unfold process_document afterDecode
    simp [hext, himg, hrot, hcard, hpre, hres, hcvt, hq, hpng, hcall]
  · intro doc e reqs hext hopen hpages hcall
    unfold process_document
    simp [hext, hopen, hpages, hcall]

/-- Witness for C3: a 503 response from the extraction service on the
single-page image path yields the extractor-failure envelope with the
decoded body as detail and the rotation diagnostics attached. -/
theorem C3_witness :
    (process_document envHttp503 [0] "a.jpg").1 =
      Except.ok { status := "failure", reason := some "extractor_failed",
                  detail := some "ExtractorDev error 503: Service Unavailable", data := none,
                  rotation := some { best_angle := 0, best_stats := 1,
                                     per_angle := [(0, 1), (90, 0), (-90, 0)] } } :=
  (C3_extractor_failure envHttp503 [0] "a.jpg").1 0 0 0 1 [(0, 1), (90, 0), (-90, 0)]
    0 0 0 0 "" [2] "ExtractorDev error 503: Service Unavailable"
    [{ url := EXTRACTOR_URL, timeout := EXTRACTOR_TIMEOUT, filename := "card.png",
       content_type := "image/png", body := [2] }]
    (by decide) rfl rfl rfl rfl rfl rfl rfl rfl rfl

/-- Claim C3 is false as stated: the failure reason on an extraction
failure is "extractor_failed", not exactly "extraction failed". -/
theorem C3_counterexample :
    (process_document envHttp503 [0] "a.jpg").1 =
        Except.ok { status := "failure", reason := some "extractor_failed",
                    detail := some "ExtractorDev error 503: Service Unavailable", data := none,
                    rotation := some { best_angle := 0, best_stats := 1,
                                       per_angle := [(0, 1), (90, 0), (-90, 0)] } } ∧
      some "extractor_failed" ≠ some ("extraction failed" : String) :=
  ⟨rfl, by decide⟩

/-- Claim C4, amended: when the Card Localizer returns the not-found
marker, `process_document` returns a terminal failure envelope whose
reason is the card-not-detected message (not the exact string
"card not detected"), attaches the rotation diagnostics computed
earlier — with exactly three per_angle entries under the spec contract
that the resolver reports one stat per candidate angle — and runs no
downstream stage (no normalization, no quality check, no extraction
request). -/
theorem C4_card_not_detected {Img Card Cv Stats : Type} (env : Env Img Card Cv Stats)
    (raw : List Nat) (filename : String) (img img2 : Img) (a : Int) (s : Stats)
    (pa : List (Int × Stats))
    (hext : extOf filename ≠ "pdf")
    (himg : env.image_open raw = Except.ok img)
    (hrot : env.best_rotation img = Except.ok (img2, a, s, pa))
    (hpa : pa.map Prod.fst = [0, 90, -90])
    (hcard : env.extract_card img2 = Except.ok none) :
    (process_document env raw filename).1 =
        Except.ok { status := "failure", reason := some cardNotDetectedReason,
                    detail := none, data := none,
                    rotation := some { best_angle := a, best_stats := s, per_angle := pa } } ∧
      pa.length = 3 ∧
      (process_document env raw filename).2 = [Event.orient, Event.localize] := by
  have hlen : pa.length = 3 := by
    have h := congrArg List.length hpa
    simpa using h
  refine ⟨?_, hlen, ?_⟩ <;>
  · unfold process_document afterDecode
    simp [hext, himg, hrot, hcard]

/-- Witness for C4: a run in which the localizer reports no card. -/
theorem C4_witness :
    (process_document envNoCard [0] "a.jpg").1 =
        Except.ok { status := "failure", reason := some cardNotDetectedReason,
                    detail := none, data := none,
                    rotation := some { best_angle := 0, best_stats := 1,
                                       per_angle := [(0, 1), (90, 0), (-90, 0)] } } ∧
      ([((0 : Int), (1 : Int)), (90, 0), (-90, 0)]).length = 3 ∧
      (process_document envNoCard [0] "a.jpg").2 = [Event.orient, Event.localize] :=
  C4_card_not_detected envNoCard [0] "a.jpg" 0 0 0 1 [(0, 1), (90, 0), (-90, 0)]
    (by decide) rfl rfl (by decide) rfl

/-- Claim C4 is false as stated: the reason is the full
card-not-detected message, not exactly "card not detected". -/
theorem C4_counterexample :
    (process_document envNoCard [0] "a.jpg").1 =
        Except.ok { status := "failure", reason := some cardNotDetectedReason,
                    detail := none, data := none,
                    rotation := some { best_angle := 0, best_stats := 1,
                                       per_angle := [(0, 1), (90, 0), (-90, 0)] } } ∧
      some cardNotDetectedReason ≠ some "card not detected" :=
  ⟨rfl, by decide⟩

/-- Claim C5: for every PDF input with more than one page,
`process_document` skips orientation, localization, normalization and
quality checking entirely — the event trace is exactly one extraction
request — and that request carries the original raw bytes unchanged
with content type "application/pdf". -/
theorem C5_multipage_forward {Img Card Cv Stats : Type} (env : Env Img Card Cv Stats)
    (raw : List Nat) (filename : String) (doc : Pdf)
    (hext : extOf filename = "pdf")
    (hopen : env.fitz_open raw = Except.ok doc)
    (hpages : 1 < doc.pageCount) :
    (process_document env raw filename).2 =
      [Event.extract { url := EXTRACTOR_URL, timeout := EXTRACTOR_TIMEOUT,
                       filename := if filename = "" then "file.pdf" else filename,
                       content_type := "application/pdf", body := raw }] := by
  have hreq := extractor_call_requests env.http raw
    (if filename = "" then "file.pdf" else filename) "application/pdf"
  unfold process_document
  rcases hec : extractor_call env.http raw (if filename = "" then "file.pdf" else filename)
      "application/pdf" with ⟨res, reqs⟩
  rw [hec] at hreq
  cases res <;> simp_all

/-- Witness for C5: a three-page PDF is forwarded as-is. -/
theorem C5_witness :
    (process_document envMultiPage [7, 8] "doc.pdf").2 =
      [Event.extract { url := EXTRACTOR_URL, timeout := EXTRACTOR_TIMEOUT,
                       filename := "doc.pdf", content_type := "application/pdf",
                       body := [7, 8] }] :=
  C5_multipage_forward envMultiPage [7, 8] "doc.pdf"
    { pageCount := 3, renderPage0 := Except.ok [1] } (by decide) rfl (by decide)

/-- Claim C6: when the Quality Gate fails, the envelope's reason is the
gate verdict's reason string verbatim, the rotation field is populated,
and no extraction request is issued (the event trace stops at the
quality stage). -/
theorem C6_quality_gate {Img Card Cv Stats : Type} (env : Env Img Card Cv Stats)
    (raw : List Nat) (filename : String) (img img2 : Img) (a : Int) (s : Stats)
    (pa : List (Int × Stats)) (card0 card1 card2 : Card) (cv_img : Cv) (r : String)
    (hext : extOf filename ≠ "pdf")
    (himg : env.image_open raw = Except.ok img)
    (hrot : env.best_rotation img = Except.ok (img2, a, s, pa))
    (hcard : env.extract_card img2 = Except.ok (some card0))
    (hpre : env.preprocess card0 = Except.ok card1)
    (hres : env.resize_long_edge card1 = Except.ok card2)
    (hcvt : env.cvt_color card2 = Except.ok cv_img)
    (hq : env.quality_check cv_img = Except.ok (false, r)) :
    (process_document env raw filename).1 =
        Except.ok { status := "failure", reason := some r, detail := none, data := none,
                    rotation := some { best_angle := a, best_stats := s, per_angle := pa } } ∧
      (process_document env raw filename).2 =
        [Event.orient, Event.localize, Event.normalize, Event.quality] := by
  constructor <;>
  · unfold process_document afterDecode
    simp [hext, himg, hrot, hcard, hpre, hres, hcvt, hq]

/-- Witness for C6: a gate verdict "image too blurry" is reproduced
verbatim in the envelope and no extraction request is issued. -/
theorem C6_witness :
    (process_document envBadQuality [0] "a.jpg").1 =
        Except.ok { status := "failure", reason := some "image too blurry",
                    detail := none, data := none,
                    rotation := some { best_angle := 0, best_stats := 1,
                                       per_angle := [(0, 1), (90, 0), (-90, 0)] } } ∧
      (process_document envBadQuality [0] "a.jpg").2 =
        [Event.orient, Event.localize, Event.normalize, Event.quality] :=
  C6_quality_gate envBadQuality [0] "a.jpg" 0 0 0 1 [(0, 1), (90, 0), (-90, 0)]
    0 0 0 0 "image too blurry" (by decide) rfl rfl rfl rfl rfl rfl rfl

/-- Claim C7, amended: `extractor_call` performs exactly one attempt
per run against the fixed endpoint with a 60-second timeout; a
transport error escapes as raised; every non-2xx response raises with
the decoded error body (JSON if parseable, else raw text) as detail;
a 2xx response with a JSON-parseable body returns the parsed body; and
the call raises if and only if it did not yield a 2xx response with a
JSON-parseable body (a 2xx body that fails JSON parsing also raises,
from `resp.json()`). -/
theorem C7_extractor_contract (http : Request → HttpOutcome) (b : List Nat) (f c : String) :
    (extractor_call http b f c).2 =
      [{ url := EXTRACTOR_URL, timeout := EXTRACTOR_TIMEOUT,
         filename := f, content_type := c, body := b }] ∧
    EXTRACTOR_TIMEOUT = 60 ∧
    (∀ m, http (requestFor b f c) = HttpOutcome.transportError m →
      (extractor_call http b f c).1 = Except.error m) ∧
    (∀ st jb tx, http (requestFor b f c) = HttpOutcome.response st jb tx →
      st < 200 ∨ 300 ≤ st →
      (extractor_call http b f c).1 =
        Except.error ("ExtractorDev error " ++ toString st ++ ": " ++ errorDetail jb tx)) ∧
    (∀ st j tx, http (requestFor b f c) = HttpOutcome.response st (some j) tx →
      200 ≤ st → st < 300 → (extractor_call http b f c).1 = Except.ok j) ∧
    ((∃ j, (extractor_call http b f c).1 = Except.ok j) ↔
      ∃ st j tx, http (requestFor b f c) = HttpOutcome.response st (some j) tx ∧
        200 ≤ st ∧ st < 300) := by
  refine ⟨extractor_call_requests http b f c, rfl, ?_, ?_, ?_, ?_⟩
  · intro m hm
    simp only [extractor_call]
    rw [hm]
  · intro st jb tx hr hbad
    simp only [extractor_call]
    rw [hr]
    simp [if_pos hbad]
  · intro st j tx hr h1 h2
    have hgood : ¬(st < 200 ∨ 300 ≤ st) := by omega
    simp only [extractor_call]
    rw [hr]
    simp [if_neg hgood]
  · constructor
    · rintro ⟨j, hj⟩
      simp only [extractor_call] at hj
      rcases hout : http (requestFor b f c) with m | ⟨st, jb, tx⟩
      · rw [hout] at hj
        simp at hj
      · rw [hout] at hj
        simp only [] at hj
        rcases jb with _ | j2
        · by_cases hbad : st < 200 ∨ 300 ≤ st
          · rw [if_pos hbad] at hj
            simp at hj
          · rw [if_neg hbad] at hj
            simp at hj
        · by_cases hbad : st < 200 ∨ 300 ≤ st
          · rw [if_pos hbad] at hj
            simp at hj
          · exact ⟨st, j2, tx, rfl, by omega, by omega⟩
    · rintro ⟨st, j, tx, hr, h1, h2⟩
      have hgood : ¬(st < 200 ∨ 300 ≤ st) := by omega
      refine ⟨j, ?_⟩
      simp only [extractor_call]
      rw [hr]
      simp [if_neg hgood]

/-- Witness for C7: a 200 response with a JSON body is returned
parsed. -/
theorem C7_witness :
    (extractor_call http200 [1] "f" "image/png").1 = Except.ok "payload" :=
  (C7_extractor_contract http200 [1] "f" "image/png").2.2.2.2.1 200 "payload" "payload"
    rfl (by decide) (by decide)

/-- Claim C7 is false as stated: a 2xx response whose body does not
parse as JSON makes `resp.json()` raise, so the call raises even though
it yielded a 2xx response. -/
theorem C7_counterexample :
    httpBadJson (requestFor [1] "f" "image/png") =
        HttpOutcome.response 200 none "oops not json" ∧
      (extractor_call httpBadJson [1] "f" "image/png").1 =
        Except.error ("JSON decode error: " ++ "oops not json") :=
  ⟨rfl, rfl⟩

/-- Claim C8: over the candidate set (0, 90, -90) passed at the call
site, the spec-modelled Orientation Resolver always chooses an angle in
that set; the choice depends only on the per-candidate confidence
summaries (so identical input bytes yield the same angle); and on an
all-tie score the chosen angle is 0. -/
theorem C8_rotation_angle :
    (∀ score : Int → Int,
      best_rotation_angle score = 0 ∨ best_rotation_angle score = 90 ∨
        best_rotation_angle score = -90) ∧
    (∀ score score2 : Int → Int,
      score 0 = score2 0 → score 90 = score2 90 → score (-90) = score2 (-90) →
      best_rotation_angle score = best_rotation_angle score2) ∧
    (∀ score : Int → Int, score 0 = score 90 → score 0 = score (-90) →
      best_rotation_angle score = 0) := by
  have hbcongr : ∀ (s s2 : Int → Int) (x y : Int), s x = s2 x → s y = s2 y →
      beats s x y = beats s2 x y := by
    intro s s2 x y hx hy
    simp [beats, hx, hy]
  refine ⟨?_, ?_, ?_⟩
  · intro score
    unfold best_rotation_angle
    simp only [List.foldl]
    split <;> split <;> simp
  · intro s s2 h0 h90 hm90
    unfold best_rotation_angle
    simp only [List.foldl]
    rw [hbcongr s s2 90 0 h90 h0]
    by_cases hin : beats s2 90 0 = true
    · simp only [hin, if_true]
      rw [hbcongr s s2 (-90) 90 hm90 h90]
    · simp only [Bool.not_eq_true] at hin
      simp only [hin, Bool.false_eq_true, if_false]
      rw [hbcongr s s2 (-90) 0 hm90 h0]
  · intro s h1 h2
    have hb1 : beats s 90 0 = false := by
      simp [beats, tiePrefers, ← h1]
    have hb2 : beats s (-90) 0 = false := by
      simp [beats, tiePrefers, ← h2]
    unfold best_rotation_angle
    simp only [List.foldl]
    simp [hb1, hb2]

/-- Witness for C8: on a constant score the chosen angle is 0, a member
of the candidate set, and agrees with itself on equal scores. -/
theorem C8_witness :
    ((fun _ => (5 : Int)) 0 = (fun _ => (5 : Int)) 90) ∧
      best_rotation_angle (fun _ => (5 : Int)) = 0 :=
  ⟨rfl, (C8_rotation_angle).2.2 (fun _ => (5 : Int)) rfl rfl⟩

/-- Claim C10: for every filename whose extension (final dot-separated
segment, lowercased) is not "pdf" — including the empty filename and
extensions outside the jpg/jpeg/png allow-list — `process_document`
takes the direct-image decoding path, and any two such filenames are
processed identically (the core never consults the allow-list). -/
theorem C10_non_pdf_direct_image {Img Card Cv Stats : Type} (env : Env Img Card Cv Stats)
    (raw : List Nat) (f1 f2 : String)
    (h1 : extOf f1 ≠ "pdf") (h2 : extOf f2 ≠ "pdf") :
    process_document env raw f1 =
        (match env.image_open raw with
         | Except.error _ => (Except.ok (decodingFailureEnvelope Stats), [])
         | Except.ok img => afterDecode env img) ∧
      process_document env raw f1 = process_document env raw f2 := by
  constructor
  · unfold process_document
    rw [if_neg h1]
  · unfold process_document
    rw [if_neg h1, if_neg h2]

/-- Witness for C10: a filename with extension "exe" (outside the
allow-list) and the empty filename both take the direct image path. -/
theorem C10_witness :
    process_document baseEnv [0] "virus.exe" =
        (match baseEnv.image_open [0] with
         | Except.error _ => (Except.ok (decodingFailureEnvelope Int), [])
         | Except.ok img => afterDecode baseEnv img) ∧
      process_document baseEnv [0] "virus.exe" = process_document baseEnv [0] "" :=
  C10_non_pdf_direct_image baseEnv [0] "virus.exe" "" (by decide) (by decide)

/-- Claim C9: the worker pool size is `max(1, cpu_count - 1)`; on a
host reporting one core it is 1, and it is never 0. -/
theorem C9_max_workers :
    (∀ cpu_count : Nat, MAX_WORKERS cpu_count = max 1 (cpu_count - 1)) ∧
      MAX_WORKERS 1 = 1 ∧ ∀ cpu_count : Nat, 1 ≤ MAX_WORKERS cpu_count :=
  ⟨fun _ => rfl, rfl, fun _ => le_max_left _ _⟩

end OcrExtractor
